import Mathlib

/-!
Verification development for the causal-health-kids server handlers.

The repository is a TypeScript CRUD application; the slice specified and
verified here is the dataset ingestion routine (upload_dataset.ts), the
profiling routine (process_dataset.ts) and the analysis state machine
(run_causal_analysis.ts), together with the relational schema
(db/schema.ts).  Handlers are embedded as pure functions from an explicit
store state to a result together with the ordered list of database writes
the handler issues; `applyWrites` replays those writes on the store.
Timestamps are modelled as natural numbers supplied by the caller, and the
file system as a partial map from paths to file contents.
-/

/-! ## Models of the JavaScript string primitives used by the handlers -/

/-- Model of JS `String.prototype.split` with a single-character separator,
on the character list: splitting never yields an empty list, and the empty
list splits to `[[]]` (JS: `"".split(c) === [""]`). -/
def splitChars (sep : Char) : List Char → List (List Char)
  | [] => [[]]
  | c :: cs =>
    match splitChars sep cs with
    | [] => [[c]]
    | h :: t => if c = sep then [] :: h :: t else (c :: h) :: t

/-- Model of JS `s.split(sep)` for a one-character separator. -/
def jsSplit (sep : Char) (s : String) : List String :=
  (splitChars sep s.toList).map (fun cs => String.mk cs)

/-- Model of JS `String.prototype.trim`: remove leading and trailing
whitespace.  (Defined over the character list so that proofs can evaluate
it; the core library's `String.trim` is equivalent on the inputs used here
but does not reduce in the kernel.) -/
def jsTrim (s : String) : String :=
  String.mk (((s.toList.dropWhile (fun c => c.isWhitespace)).reverse.dropWhile
    (fun c => c.isWhitespace)).reverse)

/-- Model of JS `x.replace(/"/g, '')`: remove every double-quote character. -/
def stripQuotes (s : String) : String :=
  String.mk (s.toList.filter (fun c => c != '"'))

/-- Model of JS `String.prototype.toLowerCase` (the handler only compares
against ASCII tokens). -/
def jsToLower (s : String) : String := String.mk (s.toList.map Char.toLower)

/-- Model of the JS test `!isNaN(parseFloat(v)) && isFinite(parseFloat(v))`
from process_dataset.ts line 86.  `parseFloat` skips leading whitespace,
reads an optional sign and then the longest prefix that is a decimal
literal (integer digits, optionally a decimal point and fraction digits,
optionally an exponent).  The test succeeds iff the significand contains at
least one digit and the parsed value is finite.  An `Infinity` literal has
no leading digit, so it correctly yields `false` here; an incomplete
exponent (e.g. `1e`) is ignored by parseFloat and does not matter for
finiteness.  Double-precision overflow of astronomically large exponents
(e.g. `1e999`, which parseFloat maps to Infinity) is not modelled. -/
def jsIsFiniteNumber (v : String) : Bool :=
  let cs := v.toList.dropWhile (fun c => c.isWhitespace)
  let cs := match cs with
    | c :: rest => if c = '+' ∨ c = '-' then rest else c :: rest
    | [] => []
  let intPart := cs.takeWhile (fun c => c.isDigit)
  let rest := cs.dropWhile (fun c => c.isDigit)
  let fracPart := match rest with
    | c :: r => if c = '.' then r.takeWhile (fun c2 : Char => c2.isDigit) else []
    | [] => []
  !intPart.isEmpty || !fracPart.isEmpty

/-- Model of the membership test
`['true', 'false', '1', '0', 'yes', 'no'].includes(v.toLowerCase())`
from process_dataset.ts lines 93-95. -/
def jsIsBooleanToken (v : String) : Bool :=
  ["true", "false", "1", "0", "yes", "no"].contains (jsToLower v)

/-- The cell/header cleanup `x.trim().replace(/"/g, '')` used throughout
process_dataset.ts. -/
def cleanCell (s : String) : String := stripQuotes (jsTrim s)

/-! ## Data model (db/schema.ts) -/

/-- `datasetStatusEnum` of db/schema.ts. -/
inductive DatasetStatus where
  | uploading | processing | ready | error
deriving DecidableEq

/-- `analysisStatusEnum` of db/schema.ts. -/
inductive AnalysisStatus where
  | pending | running | completed | failed
deriving DecidableEq

/-- `columnDataTypeEnum` of db/schema.ts. -/
inductive ColumnDataType where
  | numeric | categorical | boolean | datetime | text
deriving DecidableEq

/-- A row of `datasetsTable` (db/schema.ts).  Timestamps are naturals;
the store-assigned serial id is an explicit field. -/
structure Dataset where
  id : Nat
  name : String
  description : Option String
  file_path : String
  file_size : Nat
  columns_count : Nat
  rows_count : Nat
  status : DatasetStatus
  sample_rows : Option (List (List String))
  uploaded_at : Nat
  processed_at : Option Nat
deriving DecidableEq

/-- A row of `columnInfoTable` (db/schema.ts); the serial id, which no
handler reads, is omitted. -/
structure ColumnInfo where
  dataset_id : Nat
  column_name : String
  data_type : ColumnDataType
  null_count : Nat
  unique_count : Nat
  sample_values : Option (List String)
  is_potential_target : Bool
  is_potential_treatment : Bool
deriving DecidableEq

/-- The fixed-shape mock results object built in run_causal_analysis.ts
lines 47-57; its decimal literals are embedded as rationals. -/
structure MockResults where
  treatment_effect : Rat
  confidence_interval : Rat × Rat
  p_value : Rat
  standard_error : Rat
  model_type : String
  n_observations : Nat
  convergence : Bool
deriving DecidableEq

/-- A row of `analysesTable` (db/schema.ts).  The method label is opaque
(no handler branches on it), so it is kept as a string. -/
structure Analysis where
  id : Nat
  dataset_id : Nat
  name : String
  target_variable : String
  treatment_variables : List String
  control_variables : List String
  method : String
  status : AnalysisStatus
  results : Option MockResults
  simple_explanation : Option String
  created_at : Nat
  completed_at : Option Nat
deriving DecidableEq

/-- The relational store: the three tables the handlers touch. -/
structure Store where
  datasets : List Dataset
  analyses : List Analysis
  columnInfos : List ColumnInfo
deriving DecidableEq

/-- `SELECT * FROM datasets WHERE id = i` followed by taking row 0,
as the handlers do. -/
def lookupDataset (s : Store) (i : Nat) : Option Dataset :=
  (s.datasets.filter (fun d => d.id == i)).head?

/-- `SELECT * FROM analyses WHERE id = i` followed by taking row 0. -/
def lookupAnalysis (s : Store) (i : Nat) : Option Analysis :=
  (s.analyses.filter (fun a => a.id == i)).head?

/-! ## Database writes issued by the handlers -/

/-- One SQL write statement issued by a handler, in issue order. -/
inductive Write where
  | setDatasetStatus (id : Nat) (st : DatasetStatus)
  | insertColumnInfos (rows : List ColumnInfo)
  | finishDataset (id : Nat) (columnsCount rowsCount : Nat)
      (sampleRows : Option (List (List String))) (t : Nat)
  | insertDataset (d : Dataset)
  | setAnalysisStatus (id : Nat) (st : AnalysisStatus)
  | completeAnalysis (id : Nat) (res : MockResults) (explanation : String) (t : Nat)
deriving DecidableEq

/-- Effect of one write on the store.  `UPDATE ... WHERE id = i` touches
every matching row and nothing else; `INSERT` appends. -/
def applyWrite (s : Store) : Write → Store
  | .setDatasetStatus i st =>
      { s with datasets := s.datasets.map (fun d =>
          if d.id = i then { d with status := st } else d) }
  | .insertColumnInfos rows => { s with columnInfos := s.columnInfos ++ rows }
  | .finishDataset i cols rows sample t =>
      { s with datasets := s.datasets.map (fun d =>
          if d.id = i then
            { d with columns_count := cols, rows_count := rows,
                     sample_rows := sample, status := .ready,
                     processed_at := some t }
          else d) }
  | .insertDataset d => { s with datasets := s.datasets ++ [d] }
  | .setAnalysisStatus i st =>
      { s with analyses := s.analyses.map (fun a =>
          if a.id = i then { a with status := st } else a) }
  | .completeAnalysis i res expl t =>
      { s with analyses := s.analyses.map (fun a =>
          if a.id = i then
            { a with status := .completed, results := some res,
                     simple_explanation := some expl, completed_at := some t }
          else a) }

/-- Replay a handler's writes in order. -/
def applyWrites (s : Store) (ws : List Write) : Store := ws.foldl applyWrite s

/-! ## Error taxonomy (spec section 7) for the messages thrown in the source -/

/-- Error kinds of the spec's taxonomy, carrying the thrown message. -/
inductive AppError where
  | notFound (msg : String)
  | invalidState (msg : String)
  | precondition (msg : String)
  | conflict (msg : String)
deriving DecidableEq

/-- Message of process_dataset.ts line 17. -/
def msgDatasetNotFound (datasetId : Nat) : String :=
  "Dataset with id " ++ toString datasetId ++ " not found"

/-- Status label used when interpolated into an error message. -/
def statusLabel : DatasetStatus → String
  | .uploading => "uploading"
  | .processing => "processing"
  | .ready => "ready"
  | .error => "error"

/-- Message of process_dataset.ts line 24. -/
def msgNotProcessable (datasetId : Nat) (st : DatasetStatus) : String :=
  "Dataset " ++ toString datasetId ++
    " is not in a processable state. Current status: " ++ statusLabel st

/-- Message of run_causal_analysis.ts line 15. -/
def msgAnalysisNotFound (analysisId : Nat) : String :=
  "Analysis with id " ++ toString analysisId ++ " not found"

/-- Message of run_causal_analysis.ts line 26. -/
def msgAlreadyRunning : String := "Analysis is already running"

/-- Message of run_causal_analysis.ts line 36. -/
def msgDatasetNotReady : String := "Dataset not found or not ready for analysis"

/-! ## Profiling service: process_dataset.ts -/

/-- Embeds the per-column value sampling of process_dataset.ts lines 70-76:
from each captured data line take the cell at the given index — the empty
string when the cell is missing or empty, by JS truthiness of
`values[index] ? ... : ''` — trim and unquote it, and drop blank results. -/
def sampleColumnValues (dataLines : List String) (index : Nat) : List String :=
  (dataLines.map (fun line =>
    let values := jsSplit ',' line
    let raw := values.getD index ""
    if raw = "" then "" else cleanCell raw)).filter (fun v => v != "")

/-- Embeds the per-column type inference of process_dataset.ts lines
78-112, returning (data_type, is_potential_target, is_potential_treatment).
As in the source, the boolean test runs unconditionally after the numeric
test and overwrites the classification when it succeeds, while the
categorical test applies only when the type is still text at that point. -/
def classifyColumn (columnValues : List String) : ColumnDataType × Bool × Bool :=
  if columnValues.isEmpty then (ColumnDataType.text, false, false)
  else
    let numericAll := columnValues.all jsIsFiniteNumber
    let dataType1 := if numericAll then ColumnDataType.numeric else ColumnDataType.text
    let boolAll := columnValues.all jsIsBooleanToken
    let dataType2 := if boolAll then ColumnDataType.boolean else dataType1
    let uniqueCount := columnValues.dedup.length
    if uniqueCount ≤ 10 ∧ uniqueCount < columnValues.length ∧
        dataType2 = ColumnDataType.text then
      (ColumnDataType.categorical, numericAll, true)
    else
      (dataType2, numericAll, boolAll)

/-- Embeds the file reading and analysis block of process_dataset.ts lines
33-124, returning (columnsCount, rowsCount, sampleRows, columnInfos).  A
missing file (`fs.existsSync` false) or a read failure — both modelled by
the file map returning `none` — leaves the degraded defaults, as the
source's inner try/catch does.  The source draws `null_count` and
`unique_count` from `Math.random`; that nondeterminism is supplied by the
two oracle arguments, indexed by column position. -/
def analyzeFile (fs : String → Option String) (randNull randUniq : Nat → Nat)
    (datasetId : Nat) (filePath : String) :
    Nat × Nat × Option (List (List String)) × List ColumnInfo :=
  match fs filePath with
  | none => (0, 0, none, [])
  | some fileContent =>
    match jsSplit '\n' (jsTrim fileContent) with
    | [] => (0, 0, none, [])
    | l0 :: rest =>
      let headers := (jsSplit ',' l0).map cleanCell
      let columnsCount := headers.length
      let rowsCount := (l0 :: rest).length - 1
      let dataLines := rest.take 5
      let sampleRows : Option (List (List String)) :=
        if dataLines.isEmpty then none
        else some (dataLines.map (fun line => (jsSplit ',' line).map cleanCell))
      let columnInfos := headers.enum.map (fun p =>
        let columnValues := sampleColumnValues dataLines p.1
        let c := classifyColumn columnValues
        { dataset_id := datasetId
          column_name := p.2
          data_type := c.1
          null_count := randNull p.1
          unique_count := randUniq p.1
          sample_values := if columnValues.isEmpty then none
            else some (columnValues.take 3)
          is_potential_target := c.2.1
          is_potential_treatment := c.2.2 : ColumnInfo })
      (columnsCount, rowsCount, sampleRows, columnInfos)

/-- The updated dataset row written by the final UPDATE of a successful
process run (process_dataset.ts lines 138-148): JS `x || y` on the counts
falls back to the prior value whenever the computed count is zero. -/
def processedUpdate (d : Dataset)
    (parsed : Nat × Nat × Option (List (List String)) × List ColumnInfo)
    (now : Nat) : Dataset :=
  { d with
    columns_count := if parsed.1 = 0 then d.columns_count else parsed.1
    rows_count := if parsed.2.1 = 0 then d.rows_count else parsed.2.1
    sample_rows := parsed.2.2.1
    status := .ready
    processed_at := some now }

/-- The ordered writes of a successful process run: status to processing,
the ColumnInfo bulk insert when nonempty, then the final dataset update. -/
def processTrace (did : Nat)
    (parsed : Nat × Nat × Option (List (List String)) × List ColumnInfo)
    (now : Nat) (d : Dataset) : List Write :=
  [Write.setDatasetStatus did .processing] ++
  (if parsed.2.2.2.isEmpty then [] else [Write.insertColumnInfos parsed.2.2.2]) ++
  [Write.finishDataset did (processedUpdate d parsed now).columns_count
     (processedUpdate d parsed now).rows_count parsed.2.2.1 now]

/-- Embeds `processDataset` of process_dataset.ts.  The result pairs the
value returned (or the error thrown) with the ordered database writes; the
catch-all handler's `UPDATE ... SET status = 'error'` appears in every
throwing path's write list. -/
def processDataset (fs : String → Option String) (randNull randUniq : Nat → Nat)
    (now : Nat) (s : Store) (datasetId : Nat) :
    Except AppError Dataset × List Write :=
  match s.datasets.filter (fun d => d.id == datasetId) with
  | [] =>
      (.error (.notFound (msgDatasetNotFound datasetId)),
       [.setDatasetStatus datasetId .error])
  | dataset :: _ =>
    if dataset.status ≠ .uploading ∧ dataset.status ≠ .error then
      (.error (.invalidState (msgNotProcessable datasetId dataset.status)),
       [.setDatasetStatus datasetId .error])
    else
      let parsed := analyzeFile fs randNull randUniq datasetId dataset.file_path
      (.ok (processedUpdate dataset parsed now),
       processTrace datasetId parsed now dataset)

/-! ## Ingestion service: upload_dataset.ts -/

/-- Input of uploadDataset.  `file_data` holds the base64-decoded bytes of
the upload as UTF-8 text (base64 transport decoding is external to this
slice; the source immediately re-decodes the buffer as UTF-8). -/
structure UploadDatasetInput where
  name : String
  description : Option String
  file_data : String
  file_name : String
deriving DecidableEq

/-- Embeds `uploadDataset` of upload_dataset.ts.  The file write is
modelled as succeeding; `newId` is the store-assigned serial id.  The line
filter keeps lines that are truthy after `trim()`; `Math.max(0, len - 1)`
is natural subtraction. -/
def uploadDataset (now newId : Nat) (input : UploadDatasetInput) :
    Dataset × List Write :=
  let fileContent := input.file_data
  let filePath := "uploads/" ++ toString now ++ "_" ++ input.file_name
  let lines := (jsSplit '\n' fileContent).filter (fun l => jsTrim l != "")
  let headers := match lines with
    | [] => []
    | l0 :: _ => jsSplit ',' l0
  let d : Dataset := {
    id := newId
    name := input.name
    description := input.description
    file_path := filePath
    file_size := fileContent.utf8ByteSize
    columns_count := headers.length
    rows_count := lines.length - 1
    status := .uploading
    sample_rows := none
    uploaded_at := now
    processed_at := none }
  (d, [.insertDataset d])

/-! ## Analysis service: run_causal_analysis.ts -/

/-- The mock results object of run_causal_analysis.ts lines 47-57. -/
def mockResults (method : String) : MockResults :=
  { treatment_effect := 15 / 100
    confidence_interval := (8 / 100, 22 / 100)
    p_value := 3 / 1000
    standard_error := 35 / 1000
    model_type := method
    n_observations := 1000
    convergence := true }

/-- The templated sentence of run_causal_analysis.ts line 59. -/
def simpleExplanationText (treatmentVariables : List String) (targetVariable : String) :
    String :=
  "The analysis found that " ++ String.intercalate " and " treatmentVariables ++
  " has a positive causal effect of approximately 15% on " ++ targetVariable ++
  ". This result is statistically significant (p < 0.01) with a 95% confidence interval of [8%, 22%]."

/-- The dataset readiness check of run_causal_analysis.ts lines 30-37:
the referenced Dataset must exist and have status ready. -/
def dsReadyFor (s : Store) (a : Analysis) : Bool :=
  match s.datasets.filter (fun d => d.id == a.dataset_id) with
  | [] => false
  | d :: _ => d.status == .ready

/-- Embeds `runCausalAnalysis` of run_causal_analysis.ts.  Every thrown
error passes through the catch block, whose unconditional
`UPDATE analyses SET status = 'failed' WHERE id = analysisId` is the last
write of the trace. -/
def runCausalAnalysis (now : Nat) (s : Store) (analysisId : Nat) :
    Except AppError Analysis × List Write :=
  match s.analyses.filter (fun a => a.id == analysisId) with
  | [] =>
      (.error (.notFound (msgAnalysisNotFound analysisId)),
       [.setAnalysisStatus analysisId .failed])
  | analysis :: _ =>
    if analysis.status = .completed then (.ok analysis, [])
    else if analysis.status = .running then
      (.error (.conflict msgAlreadyRunning),
       [.setAnalysisStatus analysisId .failed])
    else
      let datasetReady := dsReadyFor s analysis
      if datasetReady = false then
        (.error (.precondition msgDatasetNotReady),
         [.setAnalysisStatus analysisId .failed])
      else
        let res := mockResults analysis.method
        let expl := simpleExplanationText analysis.treatment_variables
          analysis.target_variable
        let updated : Analysis := { analysis with
          status := .completed
          results := some res
          simple_explanation := some expl
          completed_at := some now }
        (.ok updated,
         [.setAnalysisStatus analysisId .running,
          .completeAnalysis analysisId res expl now])


/-! ## Dataset status transitions (spec section 3 invariant) -/

/-- The allowed dataset status transition relation of the spec:
uploading to processing, processing to ready, any state to error, and
error to processing (reprocessing). -/
def allowedTransition (a b : DatasetStatus) : Bool :=
  (a == .uploading && b == .processing) || (a == .processing && b == .ready) ||
  (b == .error) || (a == .error && b == .processing)

/-- The status of the first dataset row with the given id, if any. -/
def statusAt (s : Store) (i : Nat) : Option DatasetStatus :=
  (lookupDataset s i).map (fun d => d.status)

/-- The status change one step makes to an observed dataset status: empty
when the status is absent or unchanged, a single (before, after) pair
otherwise. -/
def stepPair (x y : Option DatasetStatus) : List (DatasetStatus × DatasetStatus) :=
  match x, y with
  | some a, some b => if a = b then [] else [(a, b)]
  | _, _ => []

/-- The list of actual status changes that replaying a write trace makes to
the dataset with id `i`, in order: one pair (before, after) per write that
changes that dataset's stored status. -/
def dsTransitions (s : Store) (ws : List Write) (i : Nat) :
    List (DatasetStatus × DatasetStatus) :=
  match ws with
  | [] => []
  | w :: rest =>
    let s2 := applyWrite s w
    stepPair (statusAt s i) (statusAt s2 i) ++ dsTransitions s2 rest i

/-- Spec-side definition, from the words of spec section 4.2 step 4: the
row count is the number of non-blank lines after the header line.  Used to
compare the source's stored `rows_count` against the spec's description. -/
def specNonBlankRowCount (content : String) : Nat :=
  (((jsSplit '\n' content).drop 1).filter (fun l => jsTrim l != "")).length

/-! ## Concrete instances used by witnesses and counterexamples -/

/-- A zero oracle for the randomized placeholder counts. -/
def zeroRand : Nat → Nat := fun _ => 0

/-- File system with a single 3-column, 1-row CSV. -/
def c1Fs : String → Option String :=
  fun p => if p = "data.csv" then some "a,b,c\n1,2,3" else none

def c1Dataset : Dataset :=
  { id := 1, name := "kids", description := none, file_path := "data.csv",
    file_size := 11, columns_count := 3, rows_count := 1,
    status := .uploading, sample_rows := none, uploaded_at := 0,
    processed_at := none }

def c1Store0 : Store := { datasets := [c1Dataset], analyses := [], columnInfos := [] }

/-- After the first successful process call. -/
def c1Store1 : Store :=
  applyWrites c1Store0 (processDataset c1Fs zeroRand zeroRand 1 c1Store0 1).2

/-- After a second process call, which fails with InvalidState and drives
the dataset to status error, making it processable again. -/
def c1Store2 : Store :=
  applyWrites c1Store1 (processDataset c1Fs zeroRand zeroRand 2 c1Store1 1).2

/-- After the third process call, a successful reprocessing run. -/
def c1Store3 : Store :=
  applyWrites c1Store2 (processDataset c1Fs zeroRand zeroRand 3 c1Store2 1).2

def c2Fs : String → Option String :=
  fun p => if p = "flag.csv" then some "flag\n1\n0" else none

def c2Dataset : Dataset :=
  { id := 1, name := "flags", description := none, file_path := "flag.csv",
    file_size := 8, columns_count := 1, rows_count := 2,
    status := .uploading, sample_rows := none, uploaded_at := 0,
    processed_at := none }

def c2Store : Store := { datasets := [c2Dataset], analyses := [], columnInfos := [] }

def c3Analysis : Analysis :=
  { id := 7, dataset_id := 99, name := "a", target_variable := "y",
    treatment_variables := ["t"], control_variables := [], method := "doubleml",
    status := .pending, results := none, simple_explanation := none,
    created_at := 0, completed_at := none }

def c3Store : Store := { datasets := [], analyses := [c3Analysis], columnInfos := [] }

def c4Analysis : Analysis :=
  { id := 1, dataset_id := 1, name := "done", target_variable := "y",
    treatment_variables := ["t"], control_variables := [], method := "causalml",
    status := .completed, results := none, simple_explanation := none,
    created_at := 0, completed_at := some 3 }

def c4Store : Store := { datasets := [], analyses := [c4Analysis], columnInfos := [] }

def c5Dataset : Dataset :=
  { id := 2, name := "n", description := none, file_path := "p",
    file_size := 0, columns_count := 0, rows_count := 0, status := .ready,
    sample_rows := none, uploaded_at := 0, processed_at := none }

def c5Store : Store := { datasets := [c5Dataset], analyses := [], columnInfos := [] }

/-- A readable header-only CSV with a stale prior row count. -/
def c6aFs : String → Option String :=
  fun p => if p = "h.csv" then some "a,b" else none

def c6aDataset : Dataset :=
  { id := 1, name := "n", description := none, file_path := "h.csv",
    file_size := 3, columns_count := 2, rows_count := 7,
    status := .uploading, sample_rows := none, uploaded_at := 0,
    processed_at := none }

def c6aStore : Store := { datasets := [c6aDataset], analyses := [], columnInfos := [] }

def c6aStoreAfter : Store :=
  applyWrites c6aStore (processDataset c6aFs zeroRand zeroRand 1 c6aStore 1).2

/-- A readable CSV with a blank interior line. -/
def c6bFs : String → Option String :=
  fun p => if p = "b.csv" then some "a,b\n\n1,2" else none

def c6bDataset : Dataset :=
  { id := 2, name := "n", description := none, file_path := "b.csv",
    file_size := 9, columns_count := 2, rows_count := 0,
    status := .uploading, sample_rows := none, uploaded_at := 0,
    processed_at := none }

def c6bStore : Store := { datasets := [c6bDataset], analyses := [], columnInfos := [] }

def c6bStoreAfter : Store :=
  applyWrites c6bStore (processDataset c6bFs zeroRand zeroRand 1 c6bStore 2).2

def c6wFs : String → Option String :=
  fun p => if p = "w.csv" then some "h\nx\ny" else none

def c6wDataset : Dataset :=
  { id := 1, name := "n", description := none, file_path := "w.csv",
    file_size := 5, columns_count := 1, rows_count := 5,
    status := .error, sample_rows := none, uploaded_at := 0,
    processed_at := none }

def c6wStore : Store := { datasets := [c6wDataset], analyses := [], columnInfos := [] }

def c7Input : UploadDatasetInput :=
  { name := "empty", description := none, file_data := "", file_name := "e.csv" }

def c9Analysis : Analysis :=
  { id := 4, dataset_id := 1, name := "busy", target_variable := "y",
    treatment_variables := ["t"], control_variables := [], method := "econml",
    status := .running, results := none, simple_explanation := none,
    created_at := 0, completed_at := none }

def c9Store : Store := { datasets := [], analyses := [c9Analysis], columnInfos := [] }

def c10Dataset : Dataset :=
  { id := 3, name := "n", description := none, file_path := "p",
    file_size := 0, columns_count := 2, rows_count := 4, status := .ready,
    sample_rows := none, uploaded_at := 0, processed_at := some 1 }

def c10Store : Store := { datasets := [c10Dataset], analyses := [], columnInfos := [] }

/-! ## Helper lemmas about the store primitives -/

theorem splitChars_ne_nil (sep : Char) (cs : List Char) : splitChars sep cs ≠ [] := by
  cases cs with
  | nil => simp [splitChars]
  | cons c cs =>
    unfold splitChars
    cases h : splitChars sep cs with
    | nil => simp
    | cons a t => by_cases hc : c = sep <;> simp [hc]

theorem jsSplit_ne_nil (sep : Char) (s : String) : jsSplit sep s ≠ [] := by
  unfold jsSplit
  simpa using splitChars_ne_nil sep s.toList

/-- An `UPDATE ... WHERE key = tid` that preserves keys commutes with a
first-match lookup on any key. -/
theorem head_filter_update_key {α : Type} (key : α → Nat) (g : α → α)
    (hg : ∀ x, key (g x) = key x) (tid i : Nat) (l : List α) :
    ((l.map (fun x => if key x = tid then g x else x)).filter
        (fun x => key x == i)).head?
      = ((l.filter (fun x => key x == i)).head?).map
          (fun x => if key x = tid then g x else x) := by
  induction l with
  | nil => rfl
  | cons a l ih =>
    simp only [List.map_cons, List.filter_cons]
    by_cases hat : key a = tid
    · rw [if_pos hat]
      have hga : key (g a) = key a := hg a
      by_cases hai : key a = i
      · rw [if_pos (by simpa [hga] using hai), if_pos (by simpa using hai)]
        simp [hat]
      · rw [if_neg (by simpa [hga] using hai), if_neg (by simpa using hai)]
        exact ih
    · rw [if_neg hat]
      by_cases hai : key a = i
      · rw [if_pos (by simpa using hai), if_pos (by simpa using hai)]
        simp [hat]
      · rw [if_neg (by simpa using hai), if_neg (by simpa using hai)]
        exact ih

/-- The first match of an id filter has that id. -/
theorem head_filter_key {α : Type} (key : α → Nat) (i : Nat) (l : List α) (x : α)
    (h : (l.filter (fun y => key y == i)).head? = some x) : key x = i := by
  induction l with
  | nil => cases h
  | cons a t ih =>
    by_cases ha : key a = i
    · rw [List.filter_cons_of_pos (by simpa using ha)] at h
      cases h
      exact ha
    · rw [List.filter_cons_of_neg (by simpa using ha)] at h
      exact ih h

theorem lookupDataset_id {s : Store} {i : Nat} {d : Dataset}
    (h : lookupDataset s i = some d) : d.id = i :=
  head_filter_key Dataset.id i s.datasets d h

theorem lookupAnalysis_id {s : Store} {i : Nat} {a : Analysis}
    (h : lookupAnalysis s i = some a) : a.id = i :=
  head_filter_key Analysis.id i s.analyses a h

theorem lookupDataset_setDatasetStatus (s : Store) (tid i : Nat) (st : DatasetStatus) :
    lookupDataset (applyWrite s (.setDatasetStatus tid st)) i
      = (lookupDataset s i).map
          (fun d => if d.id = tid then { d with status := st } else d) :=
  head_filter_update_key Dataset.id (fun d => { d with status := st })
    (fun _ => rfl) tid i s.datasets

theorem lookupDataset_finishDataset (s : Store) (tid i : Nat)
    (cols rows : Nat) (sample : Option (List (List String))) (t : Nat) :
    lookupDataset (applyWrite s (.finishDataset tid cols rows sample t)) i
      = (lookupDataset s i).map
          (fun d => if d.id = tid then
            { d with columns_count := cols, rows_count := rows,
                     sample_rows := sample, status := .ready,
                     processed_at := some t }
          else d) :=
  head_filter_update_key Dataset.id
    (fun d => { d with columns_count := cols, rows_count := rows,
                       sample_rows := sample, status := .ready,
                       processed_at := some t })
    (fun _ => rfl) tid i s.datasets

theorem lookupDataset_insertColumnInfos (s : Store) (rows : List ColumnInfo) (i : Nat) :
    lookupDataset (applyWrite s (.insertColumnInfos rows)) i = lookupDataset s i := rfl

theorem lookupDataset_setAnalysisStatus (s : Store) (tid i : Nat) (st : AnalysisStatus) :
    lookupDataset (applyWrite s (.setAnalysisStatus tid st)) i = lookupDataset s i := rfl

theorem lookupDataset_completeAnalysis (s : Store) (tid i : Nat)
    (res : MockResults) (expl : String) (t : Nat) :
    lookupDataset (applyWrite s (.completeAnalysis tid res expl t)) i
      = lookupDataset s i := rfl

theorem lookupAnalysis_setAnalysisStatus (s : Store) (tid i : Nat) (st : AnalysisStatus) :
    lookupAnalysis (applyWrite s (.setAnalysisStatus tid st)) i
      = (lookupAnalysis s i).map
          (fun a => if a.id = tid then { a with status := st } else a) :=
  head_filter_update_key Analysis.id (fun a => { a with status := st })
    (fun _ => rfl) tid i s.analyses

/-! ## Claim theorems -/

/-- C4: for every Analysis whose status is completed, run(analysis_id)
returns the stored record unchanged and issues no writes, so the store —
and in particular completed_at — is untouched. -/
theorem runCausalAnalysis_completed_noop (now : Nat) (s : Store) (aid : Nat)
    (a : Analysis) (ha : lookupAnalysis s aid = some a)
    (hc : a.status = .completed) :
    runCausalAnalysis now s aid = (Except.ok a, []) ∧
    applyWrites s (runCausalAnalysis now s aid).2 = s := by
  unfold lookupAnalysis at ha
  unfold runCausalAnalysis
  cases hf : s.analyses.filter (fun x => x.id == aid) with
  | nil => rw [hf] at ha; cases ha
  | cons a0 t =>
    rw [hf] at ha
    simp only [List.head?_cons, Option.some.injEq] at ha
    subst ha
    simp [hc, applyWrites]

/-- C4 witness: a concrete completed analysis is returned unchanged with no
writes. -/
theorem runCausalAnalysis_completed_noop_witness :
    runCausalAnalysis 9 c4Store 1 = (Except.ok c4Analysis, []) ∧
    applyWrites c4Store (runCausalAnalysis 9 c4Store 1).2 = c4Store :=
  runCausalAnalysis_completed_noop 9 c4Store 1 c4Analysis rfl rfl

/-- C5: process(dataset_id) fails with NotFound when no Dataset with that id
exists, and with InvalidState when the Dataset exists but its status is
neither uploading nor error. -/
theorem processDataset_preconditions (fs : String → Option String)
    (randNull randUniq : Nat → Nat) (now : Nat) (s : Store) (did : Nat) :
    (lookupDataset s did = none →
       (processDataset fs randNull randUniq now s did).1 =
         .error (.notFound (msgDatasetNotFound did))) ∧
    (∀ d, lookupDataset s did = some d →
       d.status ≠ .uploading → d.status ≠ .error →
       (processDataset fs randNull randUniq now s did).1 =
         .error (.invalidState (msgNotProcessable did d.status))) := by
  constructor
  · intro h
    unfold lookupDataset at h
    unfold processDataset
    cases hf : s.datasets.filter (fun x => x.id == did) with
    | nil => rfl
    | cons d0 t => rw [hf] at h; cases h
  · intro d hd h1 h2
    unfold lookupDataset at hd
    unfold processDataset
    cases hf : s.datasets.filter (fun x => x.id == did) with
    | nil => rw [hf] at hd; cases hd
    | cons d0 t =>
      rw [hf] at hd
      simp only [List.head?_cons, Option.some.injEq] at hd
      subst hd
      simp [h1, h2]

/-- C5 witness: a missing id yields NotFound, a ready dataset yields
InvalidState. -/
theorem processDataset_preconditions_witness :
    (processDataset (fun _ => none) zeroRand zeroRand 0 c5Store 1).1 =
      .error (.notFound (msgDatasetNotFound 1)) ∧
    (processDataset (fun _ => none) zeroRand zeroRand 0 c5Store 2).1 =
      .error (.invalidState (msgNotProcessable 2 DatasetStatus.ready)) :=
  ⟨(processDataset_preconditions (fun _ => none) zeroRand zeroRand 0 c5Store 1).1 rfl,
   (processDataset_preconditions (fun _ => none) zeroRand zeroRand 0 c5Store 2).2
     c5Dataset rfl (by decide) (by decide)⟩

/-- C7: every upload produces a Dataset with status uploading, file_size
equal to the byte length of the decoded input, and processed_at null; an
empty input yields columns_count 0 and rows_count 0. -/
theorem uploadDataset_initial_state (now newId : Nat) (input : UploadDatasetInput) :
    ((uploadDataset now newId input).1.status = DatasetStatus.uploading ∧
     (uploadDataset now newId input).1.file_size = input.file_data.utf8ByteSize ∧
     (uploadDataset now newId input).1.processed_at = none) ∧
    (input.file_data = "" →
       (uploadDataset now newId input).1.columns_count = 0 ∧
       (uploadDataset now newId input).1.rows_count = 0) := by
  refine ⟨⟨rfl, rfl, rfl⟩, ?_⟩
  intro h
  rw [uploadDataset, h]
  exact ⟨rfl, rfl⟩

/-- C7 witness: a concrete empty upload. -/
theorem uploadDataset_initial_state_witness :
    (uploadDataset 3 1 c7Input).1.status = DatasetStatus.uploading ∧
    (uploadDataset 3 1 c7Input).1.columns_count = 0 ∧
    (uploadDataset 3 1 c7Input).1.rows_count = 0 :=
  ⟨(uploadDataset_initial_state 3 1 c7Input).1.1,
   ((uploadDataset_initial_state 3 1 c7Input).2 rfl).1,
   ((uploadDataset_initial_state 3 1 c7Input).2 rfl).2⟩

/-! ## Branch characterizations of the handlers -/

theorem runCausalAnalysis_eq_notFound (now : Nat) (s : Store) (aid : Nat)
    (h : lookupAnalysis s aid = none) :
    runCausalAnalysis now s aid =
      (.error (.notFound (msgAnalysisNotFound aid)),
       [.setAnalysisStatus aid .failed]) := by
  unfold lookupAnalysis at h
  unfold runCausalAnalysis
  cases hf : s.analyses.filter (fun x => x.id == aid) with
  | nil => rfl
  | cons a0 t => rw [hf] at h; cases h

theorem runCausalAnalysis_eq_completed (now : Nat) (s : Store) (aid : Nat)
    (a : Analysis) (ha : lookupAnalysis s aid = some a)
    (h : a.status = .completed) :
    runCausalAnalysis now s aid = (.ok a, []) := by
  unfold lookupAnalysis at ha
  unfold runCausalAnalysis
  cases hf : s.analyses.filter (fun x => x.id == aid) with
  | nil => rw [hf] at ha; cases ha
  | cons a0 t =>
    rw [hf] at ha
    simp only [List.head?_cons, Option.some.injEq] at ha
    subst ha
    simp [h]

theorem runCausalAnalysis_eq_running (now : Nat) (s : Store) (aid : Nat)
    (a : Analysis) (ha : lookupAnalysis s aid = some a)
    (h : a.status = .running) :
    runCausalAnalysis now s aid =
      (.error (.conflict msgAlreadyRunning),
       [.setAnalysisStatus aid .failed]) := by
  unfold lookupAnalysis at ha
  unfold runCausalAnalysis
  cases hf : s.analyses.filter (fun x => x.id == aid) with
  | nil => rw [hf] at ha; cases ha
  | cons a0 t =>
    rw [hf] at ha
    simp only [List.head?_cons, Option.some.injEq] at ha
    subst ha
    simp [h]

theorem runCausalAnalysis_eq_notReady (now : Nat) (s : Store) (aid : Nat)
    (a : Analysis) (ha : lookupAnalysis s aid = some a)
    (h1 : a.status ≠ .completed) (h2 : a.status ≠ .running)
    (hds : dsReadyFor s a = false) :
    runCausalAnalysis now s aid =
      (.error (.precondition msgDatasetNotReady),
       [.setAnalysisStatus aid .failed]) := by
  unfold lookupAnalysis at ha
  unfold runCausalAnalysis
  cases hf : s.analyses.filter (fun x => x.id == aid) with
  | nil => rw [hf] at ha; cases ha
  | cons a0 t =>
    rw [hf] at ha
    simp only [List.head?_cons, Option.some.injEq] at ha
    subst ha
    simp [h1, h2, hds]

theorem runCausalAnalysis_eq_success (now : Nat) (s : Store) (aid : Nat)
    (a : Analysis) (ha : lookupAnalysis s aid = some a)
    (h1 : a.status ≠ .completed) (h2 : a.status ≠ .running)
    (hds : dsReadyFor s a = true) :
    runCausalAnalysis now s aid =
      (.ok { a with
              status := .completed
              results := some (mockResults a.method)
              simple_explanation := some (simpleExplanationText
                a.treatment_variables a.target_variable)
              completed_at := some now },
       [.setAnalysisStatus aid .running,
        .completeAnalysis aid (mockResults a.method)
          (simpleExplanationText a.treatment_variables a.target_variable) now]) := by
  unfold lookupAnalysis at ha
  unfold runCausalAnalysis
  cases hf : s.analyses.filter (fun x => x.id == aid) with
  | nil => rw [hf] at ha; cases ha
  | cons a0 t =>
    rw [hf] at ha
    simp only [List.head?_cons, Option.some.injEq] at ha
    subst ha
    simp [h1, h2, hds]

theorem processDataset_eq_notFound (fs : String → Option String)
    (randNull randUniq : Nat → Nat) (now : Nat) (s : Store) (did : Nat)
    (h : lookupDataset s did = none) :
    processDataset fs randNull randUniq now s did =
      (.error (.notFound (msgDatasetNotFound did)),
       [.setDatasetStatus did .error]) := by
  unfold lookupDataset at h
  unfold processDataset
  cases hf : s.datasets.filter (fun x => x.id == did) with
  | nil => rfl
  | cons d0 t => rw [hf] at h; cases h

theorem processDataset_eq_invalid (fs : String → Option String)
    (randNull randUniq : Nat → Nat) (now : Nat) (s : Store) (did : Nat)
    (d : Dataset) (hd : lookupDataset s did = some d)
    (h1 : d.status ≠ .uploading) (h2 : d.status ≠ .error) :
    processDataset fs randNull randUniq now s did =
      (.error (.invalidState (msgNotProcessable did d.status)),
       [.setDatasetStatus did .error]) := by
  unfold lookupDataset at hd
  unfold processDataset
  cases hf : s.datasets.filter (fun x => x.id == did) with
  | nil => rw [hf] at hd; cases hd
  | cons d0 t =>
    rw [hf] at hd
    simp only [List.head?_cons, Option.some.injEq] at hd
    subst hd
    simp [h1, h2]

theorem processDataset_eq_ok (fs : String → Option String)
    (randNull randUniq : Nat → Nat) (now : Nat) (s : Store) (did : Nat)
    (d : Dataset) (hd : lookupDataset s did = some d)
    (hst : d.status = .uploading ∨ d.status = .error) :
    processDataset fs randNull randUniq now s did =
      (.ok (processedUpdate d (analyzeFile fs randNull randUniq did d.file_path) now),
       processTrace did (analyzeFile fs randNull randUniq did d.file_path) now d) := by
  unfold lookupDataset at hd
  unfold processDataset
  cases hf : s.datasets.filter (fun x => x.id == did) with
  | nil => rw [hf] at hd; cases hd
  | cons d0 t =>
    rw [hf] at hd
    simp only [List.head?_cons, Option.some.injEq] at hd
    subst hd
    rcases hst with h | h <;> simp [h]

/-- After replaying a single failed-status write, the analysis row reads
back with status failed. -/
theorem lookupAnalysis_after_failed (s : Store) (aid : Nat) (a : Analysis)
    (ha : lookupAnalysis s aid = some a) :
    (lookupAnalysis (applyWrites s [Write.setAnalysisStatus aid .failed]) aid).map
        (fun x => x.status) = some .failed := by
  have hid := lookupAnalysis_id ha
  simp [applyWrites, lookupAnalysis_setAnalysisStatus, ha, hid]

/-- After replaying a single error-status write, the dataset row reads back
with status error. -/
theorem lookupDataset_after_error (s : Store) (did : Nat) (d : Dataset)
    (hd : lookupDataset s did = some d) :
    (lookupDataset (applyWrites s [Write.setDatasetStatus did .error]) did).map
        (fun x => x.status) = some .error := by
  have hid := lookupDataset_id hd
  simp [applyWrites, lookupDataset_setDatasetStatus, hd, hid]

/-- C9 (implicit): every error thrown by run(analysis_id) — NotFound and
Conflict included — is preceded by the catch block's unconditional write of
status failed for that id; in particular a running Analysis is left failed,
not running. -/
theorem runCausalAnalysis_error_unconditionally_fails (now : Nat) (s : Store)
    (aid : Nat) :
    (∀ e, (runCausalAnalysis now s aid).1 = .error e →
       (runCausalAnalysis now s aid).2 = [Write.setAnalysisStatus aid .failed]) ∧
    (∀ a, lookupAnalysis s aid = some a → a.status = .running →
       (runCausalAnalysis now s aid).1 = .error (.conflict msgAlreadyRunning) ∧
       (lookupAnalysis (applyWrites s (runCausalAnalysis now s aid).2) aid).map
           (fun x => x.status) = some .failed) := by
  constructor
  · intro e he
    cases ha : lookupAnalysis s aid with
    | none => rw [runCausalAnalysis_eq_notFound now s aid ha]
    | some a =>
      by_cases h1 : a.status = .completed
      · rw [runCausalAnalysis_eq_completed now s aid a ha h1] at he
        simp at he
      · by_cases h2 : a.status = .running
        · rw [runCausalAnalysis_eq_running now s aid a ha h2]
        · cases hds : dsReadyFor s a with
          | false => rw [runCausalAnalysis_eq_notReady now s aid a ha h1 h2 hds]
          | true =>
            rw [runCausalAnalysis_eq_success now s aid a ha h1 h2 hds] at he
            simp at he
  · intro a ha hr
    rw [runCausalAnalysis_eq_running now s aid a ha hr]
    exact ⟨rfl, lookupAnalysis_after_failed s aid a ha⟩

/-- C9 witness: running the concrete running analysis yields Conflict, the
failed write, and a final status of failed. -/
theorem runCausalAnalysis_error_unconditionally_fails_witness :
    (runCausalAnalysis 1 c9Store 4).1 = .error (.conflict msgAlreadyRunning) ∧
    (lookupAnalysis (applyWrites c9Store (runCausalAnalysis 1 c9Store 4).2) 4).map
        (fun x => x.status) = some .failed ∧
    (runCausalAnalysis 1 c9Store 4).2 = [Write.setAnalysisStatus 4 .failed] := by
  have h := (runCausalAnalysis_error_unconditionally_fails 1 c9Store 4).2
    c9Analysis rfl rfl
  exact ⟨h.1, h.2, (runCausalAnalysis_error_unconditionally_fails 1 c9Store 4).1 _ h.1⟩

/-- C3: run on a pending or failed Analysis whose Dataset is absent or not
ready fails with Precondition; the trace contains no running write (the
dataset check precedes it) and leaves the Analysis failed. -/
theorem runCausalAnalysis_preconditionFailure (now : Nat) (s : Store) (aid : Nat)
    (a : Analysis) (ha : lookupAnalysis s aid = some a)
    (hst : a.status = .pending ∨ a.status = .failed)
    (hds : ∀ d, lookupDataset s a.dataset_id = some d → d.status ≠ .ready) :
    (runCausalAnalysis now s aid).1 = .error (.precondition msgDatasetNotReady) ∧
    (runCausalAnalysis now s aid).2 = [Write.setAnalysisStatus aid .failed] ∧
    (lookupAnalysis (applyWrites s (runCausalAnalysis now s aid).2) aid).map
        (fun x => x.status) = some .failed := by
  have h1 : a.status ≠ .completed := by rcases hst with h | h <;> simp [h]
  have h2 : a.status ≠ .running := by rcases hst with h | h <;> simp [h]
  have hdsf : dsReadyFor s a = false := by
    unfold dsReadyFor
    cases hf : s.datasets.filter (fun d => d.id == a.dataset_id) with
    | nil => rfl
    | cons d0 t =>
      have hl : lookupDataset s a.dataset_id = some d0 := by
        unfold lookupDataset; rw [hf]; rfl
      simp [hds d0 hl]
  rw [runCausalAnalysis_eq_notReady now s aid a ha h1 h2 hdsf]
  exact ⟨rfl, rfl, lookupAnalysis_after_failed s aid a ha⟩

/-- C3 witness: a pending analysis referencing a missing dataset. -/
theorem runCausalAnalysis_preconditionFailure_witness :
    (runCausalAnalysis 1 c3Store 7).1 = .error (.precondition msgDatasetNotReady) ∧
    (runCausalAnalysis 1 c3Store 7).2 = [Write.setAnalysisStatus 7 .failed] ∧
    (lookupAnalysis (applyWrites c3Store (runCausalAnalysis 1 c3Store 7).2) 7).map
        (fun x => x.status) = some .failed :=
  runCausalAnalysis_preconditionFailure 1 c3Store 7 c3Analysis rfl (Or.inl rfl)
    (fun d hd => by cases hd)

/-- C10 (implicit): process on an existing Dataset in status processing or
ready not only fails with InvalidState but, through the catch-all handler,
writes status error to that Dataset — a ready Dataset loses its ready
status merely by being the target of the invalid call. -/
theorem processDataset_invalid_sets_error (fs : String → Option String)
    (randNull randUniq : Nat → Nat) (now : Nat) (s : Store) (did : Nat)
    (d : Dataset) (hd : lookupDataset s did = some d)
    (hst : d.status = .processing ∨ d.status = .ready) :
    (processDataset fs randNull randUniq now s did).1 =
      .error (.invalidState (msgNotProcessable did d.status)) ∧
    (lookupDataset
        (applyWrites s (processDataset fs randNull randUniq now s did).2) did).map
        (fun x => x.status) = some .error := by
  have h1 : d.status ≠ .uploading := by rcases hst with h | h <;> simp [h]
  have h2 : d.status ≠ .error := by rcases hst with h | h <;> simp [h]
  rw [processDataset_eq_invalid fs randNull randUniq now s did d hd h1 h2]
  exact ⟨rfl, lookupDataset_after_error s did d hd⟩

/-- C10 witness: a concrete ready dataset is driven to status error by an
invalid process call. -/
theorem processDataset_invalid_sets_error_witness :
    (processDataset (fun _ => none) zeroRand zeroRand 0 c10Store 3).1 =
      .error (.invalidState (msgNotProcessable 3 DatasetStatus.ready)) ∧
    (lookupDataset
        (applyWrites c10Store
          (processDataset (fun _ => none) zeroRand zeroRand 0 c10Store 3).2) 3).map
        (fun x => x.status) = some .error :=
  processDataset_invalid_sets_error (fun _ => none) zeroRand zeroRand 0 c10Store 3
    c10Dataset rfl (Or.inr rfl)

/-! ## Status transition lemmas -/

theorem allowedTransition_to_error (a : DatasetStatus) :
    allowedTransition a .error = true := by cases a <;> rfl

theorem dsTransitions_cons (s : Store) (w : Write) (ws : List Write) (i : Nat) :
    dsTransitions s (w :: ws) i =
      stepPair (statusAt s i) (statusAt (applyWrite s w) i) ++
        dsTransitions (applyWrite s w) ws i := rfl

theorem stepPair_same (x : Option DatasetStatus) : stepPair x x = [] := by
  cases x with
  | none => rfl
  | some a => simp [stepPair]

/-- A write that does not change the observed status contributes no
transition. -/
theorem dsTransitions_same_status (s : Store) (w : Write) (ws : List Write)
    (i : Nat) (h : statusAt (applyWrite s w) i = statusAt s i) :
    dsTransitions s (w :: ws) i = dsTransitions (applyWrite s w) ws i := by
  rw [dsTransitions_cons, h, stepPair_same]
  rfl

/-- All transitions of one step are allowed as soon as every pair of
observed statuses is either unchanged or allowed. -/
theorem stepPair_all (p : DatasetStatus × DatasetStatus → Bool)
    (x y : Option DatasetStatus)
    (h : ∀ a b, x = some a → y = some b → a = b ∨ p (a, b) = true) :
    (stepPair x y).all p = true := by
  unfold stepPair
  cases x with
  | none => rfl
  | some a =>
    cases y with
    | none => rfl
    | some b =>
      rcases h a b rfl rfl with h | h
      · simp [h]
      · by_cases hab : a = b <;> simp [hab, h]

theorem statusAt_setDatasetStatus (s : Store) (tid i : Nat) (st : DatasetStatus) :
    statusAt (applyWrite s (.setDatasetStatus tid st)) i =
      (lookupDataset s i).map (fun x => if x.id = tid then st else x.status) := by
  unfold statusAt
  rw [lookupDataset_setDatasetStatus]
  cases lookupDataset s i with
  | none => rfl
  | some x => by_cases h : x.id = tid <;> simp [h]

theorem statusAt_finishDataset (s : Store) (tid i : Nat) (cols rows : Nat)
    (sample : Option (List (List String))) (t : Nat) :
    statusAt (applyWrite s (.finishDataset tid cols rows sample t)) i =
      (lookupDataset s i).map
        (fun x => if x.id = tid then .ready else x.status) := by
  unfold statusAt
  rw [lookupDataset_finishDataset]
  cases lookupDataset s i with
  | none => rfl
  | some x => by_cases h : x.id = tid <;> simp [h]

theorem statusAt_insertColumnInfos (s : Store) (rows : List ColumnInfo) (i : Nat) :
    statusAt (applyWrite s (.insertColumnInfos rows)) i = statusAt s i := rfl

theorem statusAt_setAnalysisStatus (s : Store) (tid : Nat) (st : AnalysisStatus)
    (i : Nat) :
    statusAt (applyWrite s (.setAnalysisStatus tid st)) i = statusAt s i := rfl

theorem statusAt_completeAnalysis (s : Store) (tid : Nat) (res : MockResults)
    (expl : String) (t : Nat) (i : Nat) :
    statusAt (applyWrite s (.completeAnalysis tid res expl t)) i = statusAt s i := rfl

theorem statusAt_set_other (s : Store) (did i : Nat) (st : DatasetStatus)
    (hdi : i ≠ did) :
    statusAt (applyWrite s (.setDatasetStatus did st)) i = statusAt s i := by
  rw [statusAt_setDatasetStatus]
  unfold statusAt
  cases hl : lookupDataset s i with
  | none => rfl
  | some x =>
    have hx : x.id ≠ did := by rw [lookupDataset_id hl]; exact hdi
    simp [hx]

theorem statusAt_finish_other (s : Store) (did i : Nat) (cols rows : Nat)
    (sample : Option (List (List String))) (t : Nat) (hdi : i ≠ did) :
    statusAt (applyWrite s (.finishDataset did cols rows sample t)) i
      = statusAt s i := by
  rw [statusAt_finishDataset]
  unfold statusAt
  cases hl : lookupDataset s i with
  | none => rfl
  | some x =>
    have hx : x.id ≠ did := by rw [lookupDataset_id hl]; exact hdi
    simp [hx]

/-- The single error-status write of every failing process path makes only
allowed transitions (any state to error). -/
theorem dsTransitions_error_all (s : Store) (did i : Nat) :
    (dsTransitions s [Write.setDatasetStatus did .error] i).all
      (fun q => allowedTransition q.1 q.2) = true := by
  rw [dsTransitions_cons]
  rw [show dsTransitions (applyWrite s (Write.setDatasetStatus did .error)) [] i
        = [] from rfl]
  rw [List.append_nil]
  apply stepPair_all
  intro a b hx hy
  rw [statusAt_setDatasetStatus] at hy
  unfold statusAt at hx
  cases hl : lookupDataset s i with
  | none => rw [hl] at hx; cases hx
  | some x =>
    rw [hl] at hx hy
    simp only [Option.map_some', Option.some.injEq] at hx hy
    by_cases hxd : x.id = did
    · rw [if_pos hxd] at hy
      right
      rw [← hx, ← hy]
      exact allowedTransition_to_error x.status
    · rw [if_neg hxd] at hy
      left
      rw [← hx, ← hy]

/-- Traces with no dataset insert never create a row, so a dataset id that
is absent contributes no transitions. -/
theorem dsTransitions_all_of_none (s : Store) (ws : List Write) (i : Nat)
    (hw : ∀ w ∈ ws, ∀ d0, w ≠ Write.insertDataset d0)
    (h : lookupDataset s i = none) : dsTransitions s ws i = [] := by
  induction ws generalizing s with
  | nil => rfl
  | cons w ws ih =>
    have h2 : lookupDataset (applyWrite s w) i = none := by
      cases w with
      | setDatasetStatus tid st => rw [lookupDataset_setDatasetStatus, h]; rfl
      | finishDataset tid c r sm t => rw [lookupDataset_finishDataset, h]; rfl
      | insertColumnInfos rows => exact h
      | insertDataset d0 => exact absurd rfl (hw _ (List.mem_cons_self _ _) d0)
      | setAnalysisStatus tid st => exact h
      | completeAnalysis tid res expl t => exact h
    rw [dsTransitions_cons]
    have hx : statusAt s i = none := by unfold statusAt; rw [h]; rfl
    rw [hx, show stepPair none (statusAt (applyWrite s w) i) = [] from rfl]
    rw [List.nil_append]
    exact ih (applyWrite s w) (fun w2 hw2 => hw w2 (List.mem_cons_of_mem _ hw2)) h2

/-- Inserting a new dataset row is a creation, not a status transition. -/
theorem dsTransitions_insertDataset (s : Store) (d0 : Dataset) (i : Nat) :
    dsTransitions s [Write.insertDataset d0] i = [] := by
  rw [dsTransitions_cons]
  have hkeep : statusAt (applyWrite s (Write.insertDataset d0)) i = statusAt s i ∨
      statusAt s i = none := by
    unfold statusAt lookupDataset applyWrite
    rw [List.filter_append]
    cases hf : s.datasets.filter (fun d => d.id == i) with
    | nil => right; rfl
    | cons x t => left; rfl
  rcases hkeep with h | h
  · rw [h, stepPair_same]; rfl
  · rw [h, show stepPair none (statusAt (applyWrite s (Write.insertDataset d0)) i)
        = [] from rfl]
    rfl

/-- The three-write trace of a successful process run makes only allowed
transitions: uploading or error to processing, then processing to ready. -/
theorem dsTransitions_processTrace_all (s : Store) (did i : Nat) (d : Dataset)
    (parsed : Nat × Nat × Option (List (List String)) × List ColumnInfo)
    (now : Nat) (hd : lookupDataset s did = some d)
    (hst : d.status = .uploading ∨ d.status = .error) :
    (dsTransitions s (processTrace did parsed now d) i).all
      (fun q => allowedTransition q.1 q.2) = true := by
  unfold processTrace
  by_cases hdi : i = did
  · subst hdi
    have hid := lookupDataset_id hd
    have hallow1 : (stepPair (some d.status) (some DatasetStatus.processing)).all
        (fun q => allowedTransition q.1 q.2) = true := by
      rcases hst with h | h <;> rw [h] <;> decide
    have ha0 : statusAt s i = some d.status := by
      unfold statusAt; rw [hd]; rfl
    have hl1 : lookupDataset
        (applyWrite s (Write.setDatasetStatus i .processing)) i =
        some { d with status := .processing } := by
      rw [lookupDataset_setDatasetStatus, hd]
      simp [hid]
    have ha1 : statusAt
        (applyWrite s (Write.setDatasetStatus i .processing)) i =
        some .processing := by
      unfold statusAt; rw [hl1]; rfl
    cases hmid : parsed.2.2.2.isEmpty with
    | true =>
      rw [if_pos rfl]
      rw [List.append_nil, List.singleton_append]
      rw [dsTransitions_cons, ha0, ha1, List.all_append, Bool.and_eq_true]
      refine ⟨hallow1, ?_⟩
      rw [dsTransitions_cons, ha1]
      have ha3 : statusAt (applyWrite
          (applyWrite s (Write.setDatasetStatus i .processing))
          (Write.finishDataset i (processedUpdate d parsed now).columns_count
            (processedUpdate d parsed now).rows_count parsed.2.2.1 now)) i =
          some .ready := by
        rw [statusAt_finishDataset, hl1]
        simp [hid]
      rw [ha3]
      rw [show dsTransitions (applyWrite
          (applyWrite s (Write.setDatasetStatus i .processing))
          (Write.finishDataset i (processedUpdate d parsed now).columns_count
            (processedUpdate d parsed now).rows_count parsed.2.2.1 now)) [] i
          = [] from rfl]
      rw [List.append_nil]
      decide
    | false =>
      rw [if_neg Bool.false_ne_true]
      rw [show [Write.setDatasetStatus i DatasetStatus.processing] ++
          [Write.insertColumnInfos parsed.2.2.2] ++
          [Write.finishDataset i (processedUpdate d parsed now).columns_count
            (processedUpdate d parsed now).rows_count parsed.2.2.1 now] =
          Write.setDatasetStatus i DatasetStatus.processing ::
          Write.insertColumnInfos parsed.2.2.2 ::
          [Write.finishDataset i (processedUpdate d parsed now).columns_count
            (processedUpdate d parsed now).rows_count parsed.2.2.1 now] from rfl]
      rw [dsTransitions_cons, ha0, ha1, List.all_append, Bool.and_eq_true]
      refine ⟨hallow1, ?_⟩
      rw [dsTransitions_same_status _ _ _ _ rfl]
      rw [dsTransitions_cons]
      have ha2 : statusAt (applyWrite
          (applyWrite s (Write.setDatasetStatus i .processing))
          (Write.insertColumnInfos parsed.2.2.2)) i = some .processing := by
        rw [statusAt_insertColumnInfos, ha1]
      have hl2 : lookupDataset (applyWrite
          (applyWrite s (Write.setDatasetStatus i .processing))
          (Write.insertColumnInfos parsed.2.2.2)) i =
          some { d with status := .processing } := by
        rw [lookupDataset_insertColumnInfos, hl1]
      have ha3 : statusAt (applyWrite (applyWrite
          (applyWrite s (Write.setDatasetStatus i .processing))
          (Write.insertColumnInfos parsed.2.2.2))
          (Write.finishDataset i (processedUpdate d parsed now).columns_count
            (processedUpdate d parsed now).rows_count parsed.2.2.1 now)) i =
          some .ready := by
        rw [statusAt_finishDataset, hl2]
        simp [hid]
      rw [ha2, ha3]
      rw [show dsTransitions (applyWrite (applyWrite
          (applyWrite s (Write.setDatasetStatus i .processing))
          (Write.insertColumnInfos parsed.2.2.2))
          (Write.finishDataset i (processedUpdate d parsed now).columns_count
            (processedUpdate d parsed now).rows_count parsed.2.2.1 now)) [] i
          = [] from rfl]
      rw [List.append_nil]
      decide
  · cases hmid : parsed.2.2.2.isEmpty with
    | true =>
      rw [if_pos rfl]
      rw [List.append_nil, List.singleton_append]
      rw [dsTransitions_same_status _ _ _ _ (statusAt_set_other s did i _ hdi)]
      rw [dsTransitions_same_status _ _ _ _
        (statusAt_finish_other _ did i _ _ _ _ hdi)]
      rfl
    | false =>
      rw [if_neg Bool.false_ne_true]
      rw [show [Write.setDatasetStatus did DatasetStatus.processing] ++
          [Write.insertColumnInfos parsed.2.2.2] ++
          [Write.finishDataset did (processedUpdate d parsed now).columns_count
            (processedUpdate d parsed now).rows_count parsed.2.2.1 now] =
          Write.setDatasetStatus did DatasetStatus.processing ::
          Write.insertColumnInfos parsed.2.2.2 ::
          [Write.finishDataset did (processedUpdate d parsed now).columns_count
            (processedUpdate d parsed now).rows_count parsed.2.2.1 now] from rfl]
      rw [dsTransitions_same_status _ _ _ _ (statusAt_set_other s did i _ hdi)]
      rw [dsTransitions_same_status _ _ _ _ rfl]
      rw [dsTransitions_same_status _ _ _ _
        (statusAt_finish_other _ did i _ _ _ _ hdi)]
      rfl

theorem dsTransitions_failedWrite (s : Store) (aid i : Nat) :
    dsTransitions s [Write.setAnalysisStatus aid .failed] i = [] := by
  rw [dsTransitions_same_status _ _ _ _ rfl]
  rfl

theorem dsTransitions_runSuccess (s : Store) (aid : Nat) (res : MockResults)
    (expl : String) (t : Nat) (i : Nat) :
    dsTransitions s [Write.setAnalysisStatus aid .running,
                     Write.completeAnalysis aid res expl t] i = [] := by
  rw [dsTransitions_same_status _ _ _ _ rfl]
  rw [dsTransitions_same_status _ _ _ _ rfl]
  rfl

/-- C8: the only Dataset-status writers, process and upload, only ever make
allowed status transitions (uploading to processing, processing to ready,
any state to error, error to processing) on any store state, for every
dataset id; the run operation makes no dataset status change at all. -/
theorem datasetStatusMachine (fs : String → Option String)
    (randNull randUniq : Nat → Nat) (now : Nat) (s : Store) (did i : Nat)
    (newId aid : Nat) (input : UploadDatasetInput) :
    ((dsTransitions s (processDataset fs randNull randUniq now s did).2 i).all
        (fun q => allowedTransition q.1 q.2) = true) ∧
    ((dsTransitions s (uploadDataset now newId input).2 i).all
        (fun q => allowedTransition q.1 q.2) = true) ∧
    dsTransitions s (runCausalAnalysis now s aid).2 i = [] := by
  refine ⟨?_, ?_, ?_⟩
  · cases hl : lookupDataset s did with
    | none =>
      rw [processDataset_eq_notFound fs randNull randUniq now s did hl]
      exact dsTransitions_error_all s did i
    | some d =>
      by_cases h1 : d.status = .uploading ∨ d.status = .error
      · rw [processDataset_eq_ok fs randNull randUniq now s did d hl h1]
        exact dsTransitions_processTrace_all s did i d _ now hl h1
      · push_neg at h1
        rw [processDataset_eq_invalid fs randNull randUniq now s did d hl h1.1 h1.2]
        exact dsTransitions_error_all s did i
  · show (dsTransitions s
        [Write.insertDataset (uploadDataset now newId input).1] i).all
        (fun q => allowedTransition q.1 q.2) = true
    rw [dsTransitions_insertDataset]
    rfl
  · cases ha : lookupAnalysis s aid with
    | none =>
      rw [runCausalAnalysis_eq_notFound now s aid ha]
      exact dsTransitions_failedWrite s aid i
    | some a =>
      by_cases h1 : a.status = .completed
      · rw [runCausalAnalysis_eq_completed now s aid a ha h1]
        rfl
      · by_cases h2 : a.status = .running
        · rw [runCausalAnalysis_eq_running now s aid a ha h2]
          exact dsTransitions_failedWrite s aid i
        · cases hds : dsReadyFor s a with
          | false =>
            rw [runCausalAnalysis_eq_notReady now s aid a ha h1 h2 hds]
            exact dsTransitions_failedWrite s aid i
          | true =>
            rw [runCausalAnalysis_eq_success now s aid a ha h1 h2 hds]
            exact dsTransitions_runSuccess s aid _ _ now i

/-- C2 counterexample: a column sampled as ["1", "0"] — all values parse as
finite numbers — is classified boolean, not numeric: the boolean test runs
even though the column is already numeric and overwrites the type, while
is_potential_target stays true for this non-numeric-classified column.
The end-to-end run on a one-column CSV with rows 1 and 0 stores exactly
that ColumnInfo row. -/
theorem classifyColumn_counterexample :
    (["1", "0"].all jsIsFiniteNumber = true) ∧
    classifyColumn ["1", "0"] = (ColumnDataType.boolean, true, true) ∧
    (applyWrites c2Store (processDataset c2Fs zeroRand zeroRand 1 c2Store 1).2).columnInfos.map
        (fun c => (c.data_type, c.is_potential_target, c.is_potential_treatment)) =
      [(ColumnDataType.boolean, true, true)] := by decide

/-- C2 amended: is_potential_target is true exactly when the sampled values
are nonempty and all parse as finite numbers; for such a column the type is
numeric unless every value is also a boolean token, in which case the
unconditionally-run boolean check reclassifies it as boolean (keeping
is_potential_target true). -/
theorem classifyColumn_semantics (vs : List String) :
    ((classifyColumn vs).2.1 = true ↔
      (vs.isEmpty = false ∧ vs.all jsIsFiniteNumber = true)) ∧
    (vs.isEmpty = false → vs.all jsIsFiniteNumber = true →
      ((vs.all jsIsBooleanToken = true →
          (classifyColumn vs).1 = ColumnDataType.boolean) ∧
       (vs.all jsIsBooleanToken = false →
          (classifyColumn vs).1 = ColumnDataType.numeric))) := by
  unfold classifyColumn
  cases he : vs.isEmpty with
  | true => simp [he]
  | false =>
    cases hnum : vs.all jsIsFiniteNumber with
    | true =>
      cases hbool : vs.all jsIsBooleanToken with
      | true => simp [he, hnum, hbool]
      | false => simp [he, hnum, hbool]
    | false =>
      cases hbool : vs.all jsIsBooleanToken with
      | true => simp [he, hnum, hbool]
      | false =>
        simp [he, hnum, hbool]
        split <;> simp

/-- C2 witness: a column of plain numeric strings is classified numeric
with is_potential_target true. -/
theorem classifyColumn_semantics_witness :
    (classifyColumn ["2", "3"]).1 = ColumnDataType.numeric ∧
    (classifyColumn ["2", "3"]).2.1 = true :=
  ⟨((classifyColumn_semantics ["2", "3"]).2 (by decide) (by decide)).2 (by decide),
   (classifyColumn_semantics ["2", "3"]).1.mpr ⟨by decide, by decide⟩⟩

/-- The row count computed by the analysis block for a readable file is the
number of newline-separated segments of the trimmed content minus one. -/
theorem analyzeFile_rowsCount (fs : String → Option String)
    (randNull randUniq : Nat → Nat) (did : Nat) (path content : String)
    (h : fs path = some content) :
    (analyzeFile fs randNull randUniq did path).2.1 =
      (jsSplit '\n' (jsTrim content)).length - 1 := by
  cases hl : jsSplit '\n' (jsTrim content) with
  | nil => exact absurd hl (jsSplit_ne_nil _ _)
  | cons l0 rest =>
    unfold analyzeFile
    rw [h]
    simp [hl]

/-- Replaying a successful process trace leaves the target dataset row
exactly as the final UPDATE wrote it. -/
theorem lookupDataset_after_processTrace (s : Store) (did : Nat) (d : Dataset)
    (parsed : Nat × Nat × Option (List (List String)) × List ColumnInfo)
    (now : Nat) (hd : lookupDataset s did = some d) :
    lookupDataset (applyWrites s (processTrace did parsed now d)) did =
      some (processedUpdate d parsed now) := by
  have hid := lookupDataset_id hd
  unfold processTrace
  cases hmid : parsed.2.2.2.isEmpty with
  | true =>
    rw [if_pos rfl]
    simp only [List.append_nil, List.singleton_append]
    show lookupDataset (applyWrite (applyWrite s
        (Write.setDatasetStatus did .processing))
        (Write.finishDataset did (processedUpdate d parsed now).columns_count
          (processedUpdate d parsed now).rows_count parsed.2.2.1 now)) did =
      some (processedUpdate d parsed now)
    rw [lookupDataset_finishDataset, lookupDataset_setDatasetStatus, hd]
    simp [hid, processedUpdate]
  | false =>
    rw [if_neg Bool.false_ne_true]
    show lookupDataset (applyWrite (applyWrite (applyWrite s
        (Write.setDatasetStatus did .processing))
        (Write.insertColumnInfos parsed.2.2.2))
        (Write.finishDataset did (processedUpdate d parsed now).columns_count
          (processedUpdate d parsed now).rows_count parsed.2.2.1 now)) did =
      some (processedUpdate d parsed now)
    rw [lookupDataset_finishDataset, lookupDataset_insertColumnInfos,
      lookupDataset_setDatasetStatus, hd]
    simp [hid, processedUpdate]

/-- C6 amended: after a successful process of a readable file, the stored
rows_count is the number of newline-separated lines of the trimmed content
minus one — counting blank interior lines — unless that number is zero, in
which case the prior stored value is kept (the fallback fires whenever the
computed count is zero, also for a readable file with no data rows). -/
theorem processDataset_rowsCount_semantics (fs : String → Option String)
    (randNull randUniq : Nat → Nat) (now : Nat) (s : Store) (did : Nat)
    (d : Dataset) (content : String)
    (hd : lookupDataset s did = some d)
    (hst : d.status = .uploading ∨ d.status = .error)
    (hfile : fs d.file_path = some content) :
    (lookupDataset
        (applyWrites s (processDataset fs randNull randUniq now s did).2) did).map
        (fun x => x.rows_count) =
      some (if (jsSplit '\n' (jsTrim content)).length - 1 = 0 then d.rows_count
            else (jsSplit '\n' (jsTrim content)).length - 1) := by
  rw [processDataset_eq_ok fs randNull randUniq now s did d hd hst]
  show (lookupDataset (applyWrites s (processTrace did
      (analyzeFile fs randNull randUniq did d.file_path) now d)) did).map
      (fun x => x.rows_count) = _
  rw [lookupDataset_after_processTrace s did d _ now hd]
  show some (processedUpdate d (analyzeFile fs randNull randUniq did d.file_path) now).rows_count = _
  rw [show (processedUpdate d (analyzeFile fs randNull randUniq did d.file_path) now).rows_count =
      (if (analyzeFile fs randNull randUniq did d.file_path).2.1 = 0
       then d.rows_count
       else (analyzeFile fs randNull randUniq did d.file_path).2.1) from rfl]
  rw [analyzeFile_rowsCount fs randNull randUniq did d.file_path content hfile]

/-- C6 counterexample: (a) a readable header-only file keeps the stale
prior rows_count 7 — the zero-fallback fires without any read failure —
while the spec-side non-blank row count is 0; (b) a readable file with a
blank interior line stores rows_count 2, while the number of non-blank
lines after the header is 1. -/
theorem processDataset_rowsCount_counterexample :
    ((lookupDataset c6aStoreAfter 1).map (fun x => x.rows_count) = some 7 ∧
     (lookupDataset c6aStoreAfter 1).map (fun x => x.status) = some .ready ∧
     specNonBlankRowCount "a,b" = 0) ∧
    ((lookupDataset c6bStoreAfter 2).map (fun x => x.rows_count) = some 2 ∧
     specNonBlankRowCount "a,b\n\n1,2" = 1) := by decide

/-- C6 witness: a readable two-data-row file stores rows_count 2. -/
theorem processDataset_rowsCount_semantics_witness :
    (lookupDataset
        (applyWrites c6wStore
          (processDataset c6wFs zeroRand zeroRand 2 c6wStore 1).2) 1).map
        (fun x => x.rows_count) = some 2 := by
  have h := processDataset_rowsCount_semantics c6wFs zeroRand zeroRand 2 c6wStore 1
    c6wDataset "h\nx\ny" rfl (Or.inr rfl) rfl
  exact h.trans (by decide)

/-- C1 (code bug): reprocessing a dataset accumulates ColumnInfo rows
instead of replacing them.  Dataset 1 holds a 3-column CSV; the first
successful process stores 3 rows, an invalid second call drives the dataset
to error (making it reprocessable), and the third — successful —
process leaves 6 rows for the dataset instead of one per header column. -/
theorem processDataset_accumulates_columnInfos :
    ((processDataset c1Fs zeroRand zeroRand 3 c1Store2 1).1.toOption.isSome = true) ∧
    (lookupDataset c1Store2 1).map (fun x => x.status) = some .error ∧
    (c1Store1.columnInfos.filter (fun c => c.dataset_id == 1)).length = 3 ∧
    (c1Store3.columnInfos.filter (fun c => c.dataset_id == 1)).length = 6 ∧
    (jsSplit ',' "a,b,c").length = 3 := by decide
